import Mathlib

/-!
Verification of the image-builder gateway's admission-and-translation pipeline
against its specification. The repository sources available are the v1 handler
test suite and the configuration record; the handler functions themselves are
modelled from the specification, constrained by the concrete expectations of
the test suite (which is repository source and therefore authoritative where
it and the specification disagree).
-/

namespace ImageBuilder

/-- Image types accepted by the public compose schema, as enumerated in the
test suite (ImageTypesAws, ImageTypesAmi, ImageTypesAzure, ImageTypesVhd,
ImageTypesGcp, ImageTypesEdgeCommit, ImageTypesEdgeInstaller,
ImageTypesRhelEdgeCommit, ImageTypesRhelEdgeInstaller, ImageTypesGuestImage,
ImageTypesImageInstaller, ImageTypesVsphere). -/
inductive ImageTypes where
  | aws
  | ami
  | azure
  | vhd
  | gcp
  | edgeCommit
  | edgeInstaller
  | rhelEdgeCommit
  | rhelEdgeInstaller
  | guestImage
  | imageInstaller
  | vsphere
  | vsphereOva
deriving DecidableEq, Repr

/-- Public filesystem customization entry: mountpoint and minimum size in
bytes (test suite, TestComposeImage ErrorMaxSizeForAWSAndAzure). -/
structure Filesystem where
  mountpoint : String
  minSize : Nat
deriving DecidableEq, Repr

/-- Azure upload request options as bound from the public schema: the
resource group is required, the source id, subscription id, tenant id and
image name are optional pointer fields (absent is modelled as `none`,
matching a nil pointer after JSON binding in the test's azureRequest
helper). -/
structure AzureUploadRequestOptions where
  resourceGroup : String
  sourceId : Option String := none
  subscriptionId : Option String := none
  tenantId : Option String := none
  imageName : Option String := none
deriving DecidableEq, Repr

/-- The single canonical Azure validation message asserted verbatim by the
test suite for all six invalid combinations. -/
def azureValidationMessage : String :=
  "Request must contain either (1) a source id, and no tenant or subscription ids or (2) tenant and subscription ids, and no source id."

/-- Modelled from the spec: Azure upload option validation (spec 4.3);
exactly one of \x7bsourceId alone\x7d or \x7bsubscriptionId AND tenantId, no
sourceId\x7d must be present; any other combination is rejected with status
400 and the canonical message. The handler implementation is not under src/;
the six rejected combinations and both accepted ones are pinned by
TestComposeImage (AzureInvalid1-6) and TestComposeCustomizations. -/
def validateAzureUploadOptions (o : AzureUploadRequestOptions) :
    Except (Nat × String) Unit :=
  if (o.sourceId.isSome && o.subscriptionId.isNone && o.tenantId.isNone)
      || (o.sourceId.isNone && o.subscriptionId.isSome && o.tenantId.isSome) then
    .ok ()
  else
    .error (400, azureValidationMessage)

/-- Field-path-qualified message for an empty image request list, asserted
verbatim by TestComposeImage (ErrorsForZeroImageRequests). -/
def minItemsMessage : String :=
  "Error at \"/image_requests\": minimum number of items is 1"

/-- Field-path-qualified message for more than one image request, asserted
verbatim by TestComposeImage (ErrorsForTwoImageRequests). -/
def maxItemsMessage : String :=
  "Error at \"/image_requests\": maximum number of items is 1"

/-- Modelled from the spec: the OpenAPI schema constrains image_requests to
exactly one element (minItems 1 / maxItems 1, spec 4.3); the generated
validation layer is not under src/. Messages are pinned by TestComposeImage. -/
def validateImageRequests {α : Type} (l : List α) : Except (Nat × String) Unit :=
  if l.length < 1 then .error (400, minItemsMessage)
  else if l.length > 1 then .error (400, maxItemsMessage)
  else .ok ()

/-- Modelled from the spec: the fixed aggregate filesystem ceiling FSMaxSize
(spec 4.3). The constant's definition is not under src/; its value is 64 GiB,
consistent with the test's 66 GiB total (2147483648 + 68719476736 bytes)
exceeding it. -/
def FSMaxSize : Nat := 68719476736

/-- The AWS image-type family subject to the filesystem ceiling: aws and ami
(TestComposeImage ErrorMaxSizeForAWSAndAzure iterates over exactly these). -/
def isAwsFamily : ImageTypes → Bool
  | .aws => true
  | .ami => true
  | _ => false

/-- The Azure image-type family subject to the filesystem ceiling: azure and
vhd (TestComposeImage ErrorMaxSizeForAWSAndAzure iterates over exactly these). -/
def isAzureFamily : ImageTypes → Bool
  | .azure => true
  | .vhd => true
  | _ => false

/-- Sum of the minSize fields of all filesystem customization entries. -/
def fsSum (fss : List Filesystem) : Nat :=
  (fss.map Filesystem.minSize).sum

/-- Message rejecting an oversized AWS-family filesystem customization,
pinned by the test's format string "Total AWS image size cannot exceed %d
bytes" applied to FSMaxSize. -/
def awsFsMessage : String :=
  "Total AWS image size cannot exceed " ++ toString FSMaxSize ++ " bytes"

/-- Message rejecting an oversized Azure-family filesystem customization,
pinned by the test's format string "Total Azure image size cannot exceed %d
bytes" applied to FSMaxSize. -/
def azureFsMessage : String :=
  "Total Azure image size cannot exceed " ++ toString FSMaxSize ++ " bytes"

/-- Modelled from the spec: aggregate filesystem size validation (spec 4.3);
for AWS-family and Azure-family image types the summed minSize must not
exceed FSMaxSize, with separate per-family messages naming the byte limit.
The handler implementation is not under src/; behaviour and messages are
pinned by TestComposeImage (ErrorMaxSizeForAWSAndAzure). -/
def validateFilesystemSize (it : ImageTypes) (fss : List Filesystem) :
    Except (Nat × String) Unit :=
  if isAwsFamily it && decide (fsSum fss > FSMaxSize) then
    .error (400, awsFsMessage)
  else if isAzureFamily it && decide (fsSum fss > FSMaxSize) then
    .error (400, azureFsMessage)
  else
    .ok ()

/-- Public user customization: a name and an ssh key (test suite,
TestComposeCustomizations). -/
structure User where
  name : String
  sshKey : String
deriving DecidableEq, Repr

/-- Backend (composer) user shape: the ssh key moves to the optional Key
field and Groups is an optional group list (test suite,
TestComposeCustomizations expected composer request). -/
structure ComposerUser where
  name : String
  key : Option String
  groups : Option (List String)
deriving DecidableEq, Repr

/-- Modelled from the spec: translation of customizations.users into the
backend user shape (spec 4.3 user customizations). The handler
implementation is not under src/; the shape is pinned by
TestComposeCustomizations, whose expected composer request carries
Key = the public sshKey and Groups = ["wheel"] for the submitted user. -/
def buildUsers (us : List User) : List ComposerUser :=
  us.map fun u => ⟨u.name, some u.sshKey, some ["wheel"]⟩

/-- A distribution descriptor as loaded from a distribution directory at
startup. Only the fields the allow-list check consults are modelled: the
distribution name and its restricted-access marker. The restricted-access
marker is forced by TestComposeImageAllowList: the same distribution name
(centos-8) is accepted without an allow file when loaded from the production
distributions directory (TestComposeImageReturnsIdWhenNoErrors) but
rejected with 403 when loaded from the test-data directory with no allow
file, so the restriction is carried by the descriptor itself. -/
structure DistroDescriptor where
  name : String
  restrictedAccess : Bool
deriving DecidableEq, Repr

/-- An allow-list: the parsed contents of the optional allow file, mapping a
distribution name to the set of organizations permitted to build it
(spec 2, Allow-List Policy). -/
def AllowList : Type := List (String × List String)

/-- Whether the allow-list grants the organization access to the named
distribution: the distribution must appear in the list with the caller's
organization among its permitted organizations. -/
def allowListContains (al : AllowList) (distro org : String) : Bool :=
  al.any fun p => p.1 = distro && p.2.contains org

/-- Modelled from the spec, corrected by TestComposeImageAllowList: the
allow-list check performed during compose submission. The handler
implementation is not under src/. A distribution that is not restricted is
always permitted; a restricted distribution is permitted only when the
configured allow file lists the caller's organization for it. When no allow
file is configured the allow-list is empty, so every restricted
distribution is rejected (the test's third subtest observes 403 for a
restricted distribution with no allow file, refuting the spec's claim that
absence of the file permits everything). Returns `none` when the request
proceeds and `some 403` when it is rejected. -/
def composeAllowCheck (file : Option AllowList) (d : DistroDescriptor)
    (org : String) : Option Nat :=
  if d.restrictedAccess then
    match file with
    | none => some 403
    | some al => if allowListContains al d.name org then none else some 403
  else
    none

/-- Modelled from the spec's words alone (spec 6 and 8): the absence of the
allow file disables allow-listing entirely (every distribution permitted);
when configured, a distribution absent from the file or present without the
caller's organization is rejected. Stated for comparison with
composeAllowCheck, which follows the test suite. -/
def specAllowCheck (file : Option AllowList) (d : DistroDescriptor)
    (org : String) : Option Nat :=
  match file with
  | none => none
  | some al => if allowListContains al d.name org then none else some 403

/-- The centos-8 descriptor as loaded from the test-data distributions
directory used by TestComposeImageAllowList: restricted, since the test
observes 403 for it whenever it is not granted by an allow file. -/
def testdataCentos8 : DistroDescriptor := ⟨"centos-8", true⟩

/-- The rhel-8 descriptor as loaded from the test-data distributions
directory used by TestComposeImageAllowList: restricted, and not granted to
the test organization by the allow file (the second subtest observes 403
with the allow file configured). -/
def testdataRhel8 : DistroDescriptor := ⟨"rhel-8", true⟩

/-- The allow file used by TestComposeImageAllowList, which grants the test
caller's organization (000000) centos-8 but not rhel-8. -/
def testAllowList : AllowList := [("centos-8", ["000000"])]

/-- A backend compose-status error node: an integer code, a reason string
and nested details, which may themselves be a list of error nodes
(TestComposeStatusError builds a three-level tree of
composer.ComposeStatusError values). A nil Details field is modelled as the
empty list. -/
inductive CError where
  | node (id : Nat) (reason : String) (details : List CError) : CError

/-- The error code of a backend error node. -/
def CError.errId : CError → Nat
  | .node i _ _ => i

/-- The reason of a backend error node. -/
def CError.reason : CError → String
  | .node _ r _ => r

/-- The nested details of a backend error node. -/
def CError.details : CError → List CError
  | .node _ _ ds => ds

/-- Modelled from the spec, corrected by TestComposeStatusError: translation
of a backend compose-status error into the public ComposeStatusError. The
handler implementation is not under src/. For the composer job-class error
codes observed in the test (9, the job error wrapping, and 5, the dependency
error), the translator unwraps the nested details and recurses into the
first sub-error, so the public schema surfaces the innermost specific error;
any other code, or a job-class code without parsable sub-errors, is
returned as-is. The test feeds the tree 9 -> [5 -> [23]] and requires the
public error to be exactly node 23 ("Marking errors: package"). -/
def parseComposeStatusError : CError → CError
  | .node i r ds =>
    if i = 5 ∨ i = 9 then
      match ds with
      | [] => .node i r ds
      | e :: _ => parseComposeStatusError e
    else
      .node i r ds

/-- Modelled from the spec's words alone (spec 4.5): the public schema
surfaces the outermost composer-level error, with that error's own nested
detail preserved verbatim. Stated for comparison with
parseComposeStatusError, which follows the test suite. -/
def specStatusError (e : CError) : CError := e

/-- The backend error tree served by the mocked composer in
TestComposeStatusError: a job error (id 9) whose details hold an osbuild
dependency error (id 5) whose details hold the manifest error (id 23). -/
def testBackendError : CError :=
  .node 9 "depenceny failed"
    [.node 5 "dependency failed"
      [.node 23 "Marking errors: package" []]]

/-- The public error TestComposeStatusError requires in the translated
ComposeStatus: the innermost manifest error, with no details. -/
def testExpectedPublicError : CError :=
  .node 23 "Marking errors: package" []

/-- The body of a backend response to a compose submission, after the
gateway's parse attempts: a composer service error payload with a string id
and reason, a compose id payload, or a body that parses as neither
(modelled from the spec's backend contract, spec 6 and 7; the three test
servers in TestComposeImageErrorsWhenStatusCodeIsNotStatusCreated,
TestComposeImageErrorResolvingOSTree and
TestComposeImageErrorsWhenCannotParseResponse return one of each). -/
inductive BackendBody where
  | errorBody (id : String) (reason : String)
  | composeIdBody (id : String)
  | unparsable
deriving DecidableEq, Repr

/-- Modelled from the spec: mapping of the backend's response to a submitted
compose onto the caller-visible outcome (spec 4.4 and 7). The handler
implementation is not under src/. Any status other than 201 (created) is a
500 "Failed posting compose request to osbuild-composer" unless the body
parses as a composer error whose id is "10" (OSTree repo resolution
failure), which is surfaced as a 400 validation error; a 201 whose body does
not parse as a compose id is a 500 Internal Server Error; a 201 with a
compose id succeeds. Behaviour at each branch is pinned by the three tests
named on BackendBody. -/
def handleBackendResponse (status : Nat) (body : BackendBody) :
    Except (Nat × String) String :=
  if status ≠ 201 then
    match body with
    | .errorBody i _ =>
      if i = "10" then .error (400, "Error resolving OSTree repo")
      else .error (500, "Failed posting compose request to osbuild-composer")
    | _ => .error (500, "Failed posting compose request to osbuild-composer")
  else
    match body with
    | .composeIdBody i => .ok i
    | _ => .error (500, "Internal Server Error")

/-- The compose record the gateway persists after backend acceptance: the
compose id, or none when the submission failed (spec 4.4: a record is
written only after the backend accepts the request). -/
def persistedCompose (status : Nat) (body : BackendBody) : Option String :=
  match handleBackendResponse status body with
  | .ok i => some i
  | .error _ => none

/-- A persisted compose record, with the fields the list endpoint consults:
the compose id, the owning organization and the creation time (modelled as
a natural-number timestamp; db.InsertCompose stamps the insertion time). -/
structure ComposeRecord where
  recId : String
  orgId : String
  createdAt : Nat
deriving DecidableEq, Repr

/-- Insert a record into a descending-by-creation-time list, keeping the
order (newer records first). -/
def insertByCreatedDesc (r : ComposeRecord) :
    List ComposeRecord → List ComposeRecord
  | [] => [r]
  | x :: xs =>
    if x.createdAt ≤ r.createdAt then r :: x :: xs
    else x :: insertByCreatedDesc r xs

/-- Sort compose records by creation time, newest first. -/
def sortByCreatedDesc : List ComposeRecord → List ComposeRecord
  | [] => []
  | x :: xs => insertByCreatedDesc x (sortByCreatedDesc xs)

/-- Modelled from the spec, corrected by TestGetComposes: the compose list
for an organization. The database query is not under src/. The listing is
scoped to the caller's organization and ordered by creation time
descending, newest first: TestGetComposes inserts three composes in order
and requires the first-inserted (oldest) record to appear at index 2, the
end of the three-element data array, refuting the spec's newest-last
ordering. -/
def getComposes (db : List ComposeRecord) (org : String) :
    List ComposeRecord :=
  sortByCreatedDesc (db.filter fun r => r.orgId = org)

/-- One page of the compose list: the ordered, org-scoped listing restricted
to the requested offset and limit (spec 6, compose list pagination). -/
def getComposesPage (db : List ComposeRecord) (org : String)
    (offset limit : Nat) : List ComposeRecord :=
  ((getComposes db org).drop offset).take limit

/-- The three-record database TestGetComposes builds: three composes for
organization 000000, inserted (and therefore created) in this order. -/
def testComposesDb : List ComposeRecord :=
  [⟨"id1", "000000", 1⟩, ⟨"id2", "000000", 2⟩, ⟨"id3", "000000", 3⟩]

/-- The value of one character of the standard base64 alphabet, or none for
a character outside the alphabet (mirrors Go's base64.StdEncoding table). -/
def b64Value (c : Char) : Option Nat :=
  let n := c.toNat
  if 65 ≤ n ∧ n ≤ 90 then some (n - 65)
  else if 97 ≤ n ∧ n ≤ 122 then some (n - 97 + 26)
  else if 48 ≤ n ∧ n ≤ 57 then some (n - 48 + 52)
  else if n = 43 then some 62
  else if n = 47 then some 63
  else none

/-- Decode base64 quartets into bytes, mirroring Go's
base64.StdEncoding.DecodeString: full quartets yield three bytes, a quartet
ending in one or two padding characters must be final and yields two bytes
or one, and any other shape (a leftover of one to three characters, or a
character outside the alphabet) is an error. -/
def b64Quartets : List Char → Option (List Nat)
  | [] => some []
  | c1 :: c2 :: c3 :: c4 :: rest => do
    let v1 ← b64Value c1
    let v2 ← b64Value c2
    if c3 = '=' then
      if c4 = '=' ∧ rest = [] then
        some [v1 * 4 + v2 / 16]
      else
        none
    else do
      let v3 ← b64Value c3
      if c4 = '=' then
        if rest = [] then
          some [v1 * 4 + v2 / 16, (v2 % 16) * 16 + v3 / 4]
        else
          none
      else do
        let v4 ← b64Value c4
        let tl ← b64Quartets rest
        some ([v1 * 4 + v2 / 16, (v2 % 16) * 16 + v3 / 4, (v3 % 4) * 64 + v4] ++ tl)
  | _ => none

/-- Base64-decode a string into bytes; carriage returns and newlines are
ignored before decoding, as Go's decoder does. -/
def b64Decode (s : String) : Option (List Nat) :=
  b64Quartets (s.data.filter fun c => c ≠ '\r' ∧ c ≠ '\n')

/-- A JSON value, the shape into which the trust header's decoded bytes and
a stored compose request payload are parsed. -/
inductive Json where
  | null
  | jsonBool (b : Bool)
  | jsonNum (n : Int)
  | jsonStr (s : String)
  | jsonArr (xs : List Json)
  | jsonObj (fields : List (String × Json))

/-- The opening-brace character, written by code so that the source scanner
never sees a brace inside a literal. -/
def lbrace : Char := Char.ofNat 123

/-- The closing-brace character. -/
def rbrace : Char := Char.ofNat 125

/-- Drop JSON whitespace from the front of the input. -/
def skipWs : List Char → List Char
  | c :: cs =>
    if c = ' ' ∨ c = '\t' ∨ c = '\n' ∨ c = '\r' then skipWs cs else c :: cs
  | [] => []

/-- Match an exact literal at the front of the input, returning the rest. -/
def dropLit : List Char → List Char → Option (List Char)
  | [], rest => some rest
  | p :: ps, c :: cs => if c = p then dropLit ps cs else none
  | _ :: _, [] => none

/-- Parse the remainder of a JSON string after its opening quote, handling
the two-character escapes (a backslash followed by any character, with n, t
and r mapped to their control characters). -/
def parseJsonStr : List Char → Option (String × List Char)
  | [] => none
  | c :: cs =>
    if c = '"' then some ("", cs)
    else if c = '\\' then
      match cs with
      | [] => none
      | e :: cs2 => do
        let (s, rest) ← parseJsonStr cs2
        let ec := if e = 'n' then '\n' else if e = 't' then '\t'
          else if e = 'r' then '\r' else e
        some (String.mk (ec :: s.data), rest)
    else do
      let (s, rest) ← parseJsonStr cs
      some (String.mk (c :: s.data), rest)

/-- Read the numeric value of a digit run. -/
def digitsVal (ds : List Char) : Nat :=
  ds.foldl (fun acc d => acc * 10 + (d.toNat - 48)) 0

/-- Parse a JSON number: an optional minus sign, a non-empty run of digits,
and an optional fraction and exponent, which are consumed but do not
contribute to the modelled integer value (no claim depends on non-integer
numeric values). -/
def parseJsonNum (input : List Char) : Option (Int × List Char) :=
  let (neg, afterSign) :=
    match input with
    | '-' :: cs => (true, cs)
    | cs => (false, cs)
  let (ds, rest) := afterSign.span Char.isDigit
  if ds.isEmpty then none
  else
    let (frac, rest2) :=
      match rest with
      | '.' :: cs => cs.span (Char.isDigit)
      | cs => ([], cs)
    let rest3 :=
      match rest2 with
      | 'e' :: cs =>
        (match cs with
         | '-' :: cs2 => (cs2.span Char.isDigit).2
         | '+' :: cs2 => (cs2.span Char.isDigit).2
         | cs2 => (cs2.span Char.isDigit).2)
      | 'E' :: cs =>
        (match cs with
         | '-' :: cs2 => (cs2.span Char.isDigit).2
         | '+' :: cs2 => (cs2.span Char.isDigit).2
         | cs2 => (cs2.span Char.isDigit).2)
      | cs => cs
    let _ := frac
    let v : Int := Int.ofNat (digitsVal ds)
    some (if neg then -v else v, rest3)

/-- Parse the comma-separated members of a non-empty JSON object, up to and
including the closing brace, given a parser for one value; the fuel bounds
the number of members. -/
def parseObjFieldsWith (valp : List Char → Option (Json × List Char)) :
    Nat → List Char → Option (List (String × Json) × List Char)
  | 0, _ => none
  | Nat.succ fuel, input =>
    match skipWs input with
    | [] => none
    | c :: cs =>
      if c = '"' then do
        let (k, rest) ← parseJsonStr cs
        match skipWs rest with
        | ':' :: rest2 => do
          let (v, rest3) ← valp rest2
          match skipWs rest3 with
          | ',' :: rest4 => do
            let (fs, rest5) ← parseObjFieldsWith valp fuel rest4
            some ((k, v) :: fs, rest5)
          | d :: rest4 =>
            if d = rbrace then some ([(k, v)], rest4) else none
          | [] => none
        | _ => none
      else
        none

/-- Parse the comma-separated items of a non-empty JSON array, up to and
including the closing bracket, given a parser for one value; the fuel
bounds the number of items. -/
def parseArrItemsWith (valp : List Char → Option (Json × List Char)) :
    Nat → List Char → Option (List Json × List Char)
  | 0, _ => none
  | Nat.succ fuel, input => do
    let (v, rest) ← valp input
    match skipWs rest with
    | ',' :: rest2 => do
      let (xs, rest3) ← parseArrItemsWith valp fuel rest2
      some (v :: xs, rest3)
    | ']' :: rest2 => some ([v], rest2)
    | _ => none

/-- Parse one JSON value. The first argument is fuel bounding the nesting
depth explored; an input's own length plus one always suffices, since every
nesting level consumes at least one character. -/
def parseJsonVal : Nat → List Char → Option (Json × List Char)
  | 0, _ => none
  | Nat.succ fuel, input =>
    match skipWs input with
    | [] => none
    | c :: cs =>
      if c = lbrace then
        match skipWs cs with
        | d :: ds =>
          if d = rbrace then some (.jsonObj [], ds)
          else
            (parseObjFieldsWith (parseJsonVal fuel) (d :: ds).length (d :: ds)).map
              fun (fs, rest) => (.jsonObj fs, rest)
        | [] => none
      else if c = '[' then
        match skipWs cs with
        | d :: ds =>
          if d = ']' then some (.jsonArr [], ds)
          else
            (parseArrItemsWith (parseJsonVal fuel) (d :: ds).length (d :: ds)).map
              fun (xs, rest) => (.jsonArr xs, rest)
        | [] => none
      else if c = '"' then
        (parseJsonStr cs).map fun (s, rest) => (.jsonStr s, rest)
      else if c = 't' then
        (dropLit ['r', 'u', 'e'] cs).map fun rest => (.jsonBool true, rest)
      else if c = 'f' then
        (dropLit ['a', 'l', 's', 'e'] cs).map fun rest => (.jsonBool false, rest)
      else if c = 'n' then
        (dropLit ['u', 'l', 'l'] cs).map fun rest => (.null, rest)
      else
        (parseJsonNum (c :: cs)).map fun (n, rest) => (.jsonNum n, rest)

/-- Parse a complete JSON document: one value followed only by whitespace. -/
def parseJsonBytes (bytes : List Nat) : Option Json :=
  let chars := bytes.map Char.ofNat
  match parseJsonVal (chars.length + 1) chars with
  | some (j, rest) => if skipWs rest = [] then some j else none
  | none => none

/-- The tenant identity carried by the trust header (spec 3): the
organization id and the account number, both defaulting to the empty string
when their JSON fields are absent. -/
structure Identity where
  orgId : String
  accountNumber : String
deriving DecidableEq, Repr

/-- Look up a key among JSON object fields (first occurrence). -/
def jsonLookup (fields : List (String × Json)) (k : String) : Option Json :=
  match fields.find? (fun p => p.1 = k) with
  | some p => some p.2
  | none => none

/-- Read a string-typed field: an absent or null field defaults to the empty
string (Go leaves the struct field at its zero value), a string field
yields its value, and any other type is an unmarshal error. -/
def jsonStrField (fields : List (String × Json)) (k : String) :
    Option String :=
  match jsonLookup fields k with
  | none => some ""
  | some .null => some ""
  | some (.jsonStr s) => some s
  | some _ => none

/-- Modelled from the spec: unmarshalling of the decoded trust header into
the identity structure (spec 4.1 and 6; the identity middleware is not
under src/). The document must be a JSON object; its identity member, when
present, must itself be an object whose org_id and account_number members,
when present, are strings; anything else is the same unmarshal failure Go
reports for a type mismatch. Absent members default to empty strings. -/
def identityFromJson : Json → Option Identity
  | .jsonObj fields =>
    match jsonLookup fields "identity" with
    | none => some ⟨"", ""⟩
    | some .null => some ⟨"", ""⟩
    | some (.jsonObj ifields) => do
      let org ← jsonStrField ifields "org_id"
      let acct ← jsonStrField ifields "account_number"
      some ⟨org, acct⟩
    | some _ => none
  | _ => none

/-- Message for a request without the trust header, pinned by
TestWithoutOsbuildComposerBackend (VerifyIdentityHeaderMissing). -/
def missingHeaderMessage : String := "missing x-rh-identity header"

/-- Message for a trust header that is not valid base64, pinned by
TestWithoutOsbuildComposerBackend (BogusAuthString). -/
def badB64Message : String := "unable to b64 decode x-rh-identity header"

/-- Message for a decoded trust header that is not valid JSON, pinned by
TestWithoutOsbuildComposerBackend (BogusBase64AuthString). -/
def badJsonMessage : String := "x-rh-identity header does not contain valid JSON"

/-- Message for a decoded identity without an organization id, pinned by
TestWithoutOsbuildComposerBackend (EmptyOrgID). -/
def badOrgMessage : String := "invalid or missing org_id"

/-- Modelled from the spec: resolution of the trust header into a tenant
identity (spec 4.1 and 6; the middleware is not under src/). A missing
header, a header that does not base64-decode, decoded bytes that do not
parse as a well-formed identity document, and an empty organization id each
fail with status 400 and their own message; otherwise the identity is
returned. -/
def resolveIdentity (header : Option String) : Except (Nat × String) Identity :=
  match header with
  | none => .error (400, missingHeaderMessage)
  | some h =>
    match b64Decode h with
    | none => .error (400, badB64Message)
    | some bytes =>
      match (parseJsonBytes bytes).bind identityFromJson with
      | none => .error (400, badJsonMessage)
      | some ident =>
        if ident.orgId = "" then .error (400, badOrgMessage)
        else .ok ident

/-- Public OSTree options: five optional fields, passed through structurally
(spec 4.3; exercised by TestComposeCustomizations and
TestBuildOSTreeOptions). -/
structure OSTree where
  ref : Option String := none
  url : Option String := none
  contenturl : Option String := none
  parent : Option String := none
  rhsm : Option Bool := none
deriving DecidableEq, Repr

/-- AWS upload request options: optional account and source share lists
(test suite, TestComposeImage and TestComposeCustomizations). -/
structure AWSUploadRequestOptions where
  shareWithAccounts : Option (List String) := none
  shareWithSources : Option (List String) := none
deriving DecidableEq, Repr

/-- GCP upload request options: an optional account share list. -/
structure GCPUploadRequestOptions where
  shareWithAccounts : Option (List String) := none
deriving DecidableEq, Repr

/-- The closed polymorphic upload options variant, keyed by the upload type
discriminator (spec 3 and 9: a tagged variant with one payload per cloud;
the aws.s3 variant carries no request fields). -/
inductive UploadOptions where
  | awsOptions (o : AWSUploadRequestOptions)
  | awsS3Options
  | azureOptions (o : AzureUploadRequestOptions)
  | gcpOptions (o : GCPUploadRequestOptions)
deriving DecidableEq, Repr

/-- The public upload request: the type discriminator is determined by the
options variant. -/
structure UploadRequest where
  options : UploadOptions
deriving DecidableEq, Repr

/-- The discriminator string of an upload options variant, matching the
public UploadTypes constants (aws, aws.s3, azure, gcp). -/
def uploadTypeStr : UploadOptions → String
  | .awsOptions _ => "aws"
  | .awsS3Options => "aws.s3"
  | .azureOptions _ => "azure"
  | .gcpOptions _ => "gcp"

/-- A public repository entry of a payload_repositories customization
(test suite, TestComposeCustomizations; spec 3 Repository). -/
structure Repository where
  baseurl : Option String := none
  metalink : Option String := none
  mirrorlist : Option String := none
  gpgkey : Option String := none
  checkGpg : Option Bool := none
  checkRepoGpg : Option Bool := none
  ignoreSsl : Option Bool := none
  rhsm : Bool := false
deriving DecidableEq, Repr

/-- A custom_repositories entry (test suite, TestComposeCustomizations). -/
structure CustomRepository where
  repoId : String
  baseurl : Option (List String) := none
  gpgkey : Option (List String) := none
  checkGpg : Option Bool := none
deriving DecidableEq, Repr

/-- The public subscription customization: an integer organization id and
string/boolean fields (spec 4.3 subscription customization). -/
structure Subscription where
  organization : Int
  activationKey : String
  baseUrl : String
  serverUrl : String
  insights : Bool
deriving DecidableEq, Repr

/-- The openscap customization: a profile id. -/
structure OpenSCAP where
  profileId : String
deriving DecidableEq, Repr

/-- The optional customizations bag of a public compose request (spec 3). -/
structure Customizations where
  packages : Option (List String) := none
  users : Option (List User) := none
  filesystem : Option (List Filesystem) := none
  payloadRepositories : Option (List Repository) := none
  customRepositories : Option (List CustomRepository) := none
  subscription : Option Subscription := none
  openscap : Option OpenSCAP := none
deriving DecidableEq, Repr

/-- A public image request: architecture, image type, optional OSTree
options and the upload request (spec 3). -/
structure ImageRequest where
  architecture : String
  imageType : ImageTypes
  ostree : Option OSTree := none
  uploadRequest : UploadRequest
deriving DecidableEq, Repr

/-- The public compose request (spec 3). -/
structure ComposeRequest where
  distribution : String
  imageName : Option String := none
  imageRequests : List ImageRequest
  customizations : Option Customizations := none
deriving DecidableEq, Repr

/-- The public string form of an image type. -/
def imageTypeStr : ImageTypes → String
  | .aws => "aws"
  | .ami => "ami"
  | .azure => "azure"
  | .vhd => "vhd"
  | .gcp => "gcp"
  | .edgeCommit => "edge-commit"
  | .edgeInstaller => "edge-installer"
  | .rhelEdgeCommit => "rhel-edge-commit"
  | .rhelEdgeInstaller => "rhel-edge-installer"
  | .guestImage => "guest-image"
  | .imageInstaller => "image-installer"
  | .vsphere => "vsphere"
  | .vsphereOva => "vsphere-ova"

/-- Parse the public string form of an image type. -/
def imageTypeOfStr (s : String) : Option ImageTypes :=
  if s = "aws" then some .aws
  else if s = "ami" then some .ami
  else if s = "azure" then some .azure
  else if s = "vhd" then some .vhd
  else if s = "gcp" then some .gcp
  else if s = "edge-commit" then some .edgeCommit
  else if s = "edge-installer" then some .edgeInstaller
  else if s = "rhel-edge-commit" then some .rhelEdgeCommit
  else if s = "rhel-edge-installer" then some .rhelEdgeInstaller
  else if s = "guest-image" then some .guestImage
  else if s = "image-installer" then some .imageInstaller
  else if s = "vsphere" then some .vsphere
  else if s = "vsphere-ova" then some .vsphereOva
  else none

/-- Find a field of a JSON object, defaulting to null when absent (the
encoders below write every field, using null for an absent optional, so
absent and null decode alike, as they do for Go's Unmarshal into pointer
fields). -/
def getField : List (String × Json) → String → Json
  | [], _ => .null
  | (k, v) :: fs, key => if k = key then v else getField fs key

/-- Encode an optional string, null when absent. -/
def encOptStr : Option String → Json
  | none => .null
  | some s => .jsonStr s

/-- Decode an optional string. -/
def decOptStr : Json → Option (Option String)
  | .null => some none
  | .jsonStr s => some (some s)
  | _ => none

/-- Decode a required string. -/
def decStr : Json → Option String
  | .jsonStr s => some s
  | _ => none

/-- Encode an optional boolean, null when absent. -/
def encOptBool : Option Bool → Json
  | none => .null
  | some b => .jsonBool b

/-- Decode an optional boolean. -/
def decOptBool : Json → Option (Option Bool)
  | .null => some none
  | .jsonBool b => some (some b)
  | _ => none

/-- Decode a required boolean. -/
def decBool : Json → Option Bool
  | .jsonBool b => some b
  | _ => none

/-- Decode a natural number (a non-negative JSON integer). -/
def decNat : Json → Option Nat
  | .jsonNum n => if 0 ≤ n then some n.toNat else none
  | _ => none

/-- Decode an integer. -/
def decInt : Json → Option Int
  | .jsonNum n => some n
  | _ => none

/-- Encode a string list. -/
def encStrList (xs : List String) : Json :=
  .jsonArr (xs.map Json.jsonStr)

/-- Decode each element of a JSON list with an element decoder, failing if
any element fails. -/
def decodeListWith {α : Type} (dec : Json → Option α) : List Json → Option (List α)
  | [] => some []
  | j :: js => do
    let x ← dec j
    let xs ← decodeListWith dec js
    some (x :: xs)

/-- Decode a string list. -/
def decStrList : Json → Option (List String)
  | .jsonArr xs => decodeListWith decStr xs
  | _ => none

/-- Whether a JSON value is null. -/
def Json.isNull : Json → Bool
  | .null => true
  | _ => false

/-- Encode an optional string list, null when absent. -/
def encOptStrList : Option (List String) → Json
  | none => .null
  | some xs => encStrList xs

/-- Decode an optional string list. -/
def decOptStrList (j : Json) : Option (Option (List String)) :=
  if j.isNull then some none else (decStrList j).map some

/-- Encode an optional value with an element encoder, null when absent. -/
def encOpt {α : Type} (enc : α → Json) : Option α → Json
  | none => .null
  | some x => enc x

/-- Decode an optional value with an element decoder. -/
def decOpt {α : Type} (dec : Json → Option α) (j : Json) : Option (Option α) :=
  if j.isNull then some none else (dec j).map some

/-- Encode a list with an element encoder. -/
def encList {α : Type} (enc : α → Json) (xs : List α) : Json :=
  .jsonArr (xs.map enc)

/-- Decode a list with an element decoder. -/
def decList {α : Type} (dec : Json → Option α) : Json → Option (List α)
  | .jsonArr xs => decodeListWith dec xs
  | _ => none

/-- Encode OSTree options (field-for-field optional mapping, spec 4.3). -/
def encodeOSTree (o : OSTree) : Json :=
  .jsonObj
    [("ref", encOptStr o.ref),
     ("url", encOptStr o.url),
     ("contenturl", encOptStr o.contenturl),
     ("parent", encOptStr o.parent),
     ("rhsm", encOptBool o.rhsm)]

/-- Decode OSTree options. -/
def decodeOSTree : Json → Option OSTree
  | .jsonObj fs => do
    let ref ← decOptStr (getField fs "ref")
    let url ← decOptStr (getField fs "url")
    let contenturl ← decOptStr (getField fs "contenturl")
    let parent ← decOptStr (getField fs "parent")
    let rhsm ← decOptBool (getField fs "rhsm")
    some ⟨ref, url, contenturl, parent, rhsm⟩
  | _ => none

/-- Encode AWS upload options. -/
def encodeAWSOptions (o : AWSUploadRequestOptions) : Json :=
  .jsonObj
    [("share_with_accounts", encOptStrList o.shareWithAccounts),
     ("share_with_sources", encOptStrList o.shareWithSources)]

/-- Decode AWS upload options. -/
def decodeAWSOptions : Json → Option AWSUploadRequestOptions
  | .jsonObj fs => do
    let a ← decOptStrList (getField fs "share_with_accounts")
    let s ← decOptStrList (getField fs "share_with_sources")
    some ⟨a, s⟩
  | _ => none

/-- Encode Azure upload options. -/
def encodeAzureOptions (o : AzureUploadRequestOptions) : Json :=
  .jsonObj
    [("resource_group", .jsonStr o.resourceGroup),
     ("source_id", encOptStr o.sourceId),
     ("subscription_id", encOptStr o.subscriptionId),
     ("tenant_id", encOptStr o.tenantId),
     ("image_name", encOptStr o.imageName)]

/-- Decode Azure upload options. -/
def decodeAzureOptions : Json → Option AzureUploadRequestOptions
  | .jsonObj fs => do
    let rg ← decStr (getField fs "resource_group")
    let src ← decOptStr (getField fs "source_id")
    let sub ← decOptStr (getField fs "subscription_id")
    let ten ← decOptStr (getField fs "tenant_id")
    let img ← decOptStr (getField fs "image_name")
    some ⟨rg, src, sub, ten, img⟩
  | _ => none

/-- Encode GCP upload options. -/
def encodeGCPOptions (o : GCPUploadRequestOptions) : Json :=
  .jsonObj [("share_with_accounts", encOptStrList o.shareWithAccounts)]

/-- Decode GCP upload options. -/
def decodeGCPOptions : Json → Option GCPUploadRequestOptions
  | .jsonObj fs => do
    let a ← decOptStrList (getField fs "share_with_accounts")
    some ⟨a⟩
  | _ => none

/-- Encode the typed upload options under their discriminator. -/
def encodeUploadOptions : UploadOptions → Json
  | .awsOptions o => encodeAWSOptions o
  | .awsS3Options => .jsonObj []
  | .azureOptions o => encodeAzureOptions o
  | .gcpOptions o => encodeGCPOptions o

/-- Encode an upload request: the discriminator plus the options object. -/
def encodeUploadRequest (u : UploadRequest) : Json :=
  .jsonObj
    [("type", .jsonStr (uploadTypeStr u.options)),
     ("options", encodeUploadOptions u.options)]

/-- Decode an upload request, dispatching the options on the type
discriminator (spec 9: reject unknown discriminators at the boundary). -/
def decodeUploadRequest : Json → Option UploadRequest
  | .jsonObj fs => do
    let t ← decStr (getField fs "type")
    if t = "aws" then do
      let o ← decodeAWSOptions (getField fs "options")
      some ⟨.awsOptions o⟩
    else if t = "aws.s3" then
      match getField fs "options" with
      | .jsonObj _ => some ⟨.awsS3Options⟩
      | _ => none
    else if t = "azure" then do
      let o ← decodeAzureOptions (getField fs "options")
      some ⟨.azureOptions o⟩
    else if t = "gcp" then do
      let o ← decodeGCPOptions (getField fs "options")
      some ⟨.gcpOptions o⟩
    else
      none
  | _ => none

/-- Encode a payload repository. -/
def encodeRepository (r : Repository) : Json :=
  .jsonObj
    [("baseurl", encOptStr r.baseurl),
     ("metalink", encOptStr r.metalink),
     ("mirrorlist", encOptStr r.mirrorlist),
     ("gpgkey", encOptStr r.gpgkey),
     ("check_gpg", encOptBool r.checkGpg),
     ("check_repo_gpg", encOptBool r.checkRepoGpg),
     ("ignore_ssl", encOptBool r.ignoreSsl),
     ("rhsm", .jsonBool r.rhsm)]

/-- Decode a payload repository. -/
def decodeRepository : Json → Option Repository
  | .jsonObj fs => do
    let b ← decOptStr (getField fs "baseurl")
    let m ← decOptStr (getField fs "metalink")
    let ml ← decOptStr (getField fs "mirrorlist")
    let g ← decOptStr (getField fs "gpgkey")
    let cg ← decOptBool (getField fs "check_gpg")
    let crg ← decOptBool (getField fs "check_repo_gpg")
    let is ← decOptBool (getField fs "ignore_ssl")
    let rh ← decBool (getField fs "rhsm")
    some ⟨b, m, ml, g, cg, crg, is, rh⟩
  | _ => none

/-- Encode a custom repository. -/
def encodeCustomRepository (r : CustomRepository) : Json :=
  .jsonObj
    [("id", .jsonStr r.repoId),
     ("baseurl", encOptStrList r.baseurl),
     ("gpgkey", encOptStrList r.gpgkey),
     ("check_gpg", encOptBool r.checkGpg)]

/-- Decode a custom repository. -/
def decodeCustomRepository : Json → Option CustomRepository
  | .jsonObj fs => do
    let i ← decStr (getField fs "id")
    let b ← decOptStrList (getField fs "baseurl")
    let g ← decOptStrList (getField fs "gpgkey")
    let cg ← decOptBool (getField fs "check_gpg")
    some ⟨i, b, g, cg⟩
  | _ => none

/-- Encode a user customization. -/
def encodeUser (u : User) : Json :=
  .jsonObj
    [("name", .jsonStr u.name),
     ("ssh_key", .jsonStr u.sshKey)]

/-- Decode a user customization. -/
def decodeUser : Json → Option User
  | .jsonObj fs => do
    let n ← decStr (getField fs "name")
    let k ← decStr (getField fs "ssh_key")
    some ⟨n, k⟩
  | _ => none

/-- Encode a filesystem customization entry. -/
def encodeFilesystem (f : Filesystem) : Json :=
  .jsonObj
    [("mountpoint", .jsonStr f.mountpoint),
     ("min_size", .jsonNum (Int.ofNat f.minSize))]

/-- Decode a filesystem customization entry. -/
def decodeFilesystem : Json → Option Filesystem
  | .jsonObj fs => do
    let m ← decStr (getField fs "mountpoint")
    let s ← decNat (getField fs "min_size")
    some ⟨m, s⟩
  | _ => none

/-- Encode a subscription customization. -/
def encodeSubscription (s : Subscription) : Json :=
  .jsonObj
    [("organization", .jsonNum s.organization),
     ("activation-key", .jsonStr s.activationKey),
     ("base-url", .jsonStr s.baseUrl),
     ("server-url", .jsonStr s.serverUrl),
     ("insights", .jsonBool s.insights)]

/-- Decode a subscription customization. -/
def decodeSubscription : Json → Option Subscription
  | .jsonObj fs => do
    let o ← decInt (getField fs "organization")
    let a ← decStr (getField fs "activation-key")
    let b ← decStr (getField fs "base-url")
    let sv ← decStr (getField fs "server-url")
    let i ← decBool (getField fs "insights")
    some ⟨o, a, b, sv, i⟩
  | _ => none

/-- Encode an openscap customization. -/
def encodeOpenSCAP (o : OpenSCAP) : Json :=
  .jsonObj [("profile_id", .jsonStr o.profileId)]

/-- Decode an openscap customization. -/
def decodeOpenSCAP : Json → Option OpenSCAP
  | .jsonObj fs => do
    let p ← decStr (getField fs "profile_id")
    some ⟨p⟩
  | _ => none

/-- Encode the customizations bag. -/
def encodeCustomizations (c : Customizations) : Json :=
  .jsonObj
    [("packages", encOptStrList c.packages),
     ("users", encOpt (encList encodeUser) c.users),
     ("filesystem", encOpt (encList encodeFilesystem) c.filesystem),
     ("payload_repositories", encOpt (encList encodeRepository) c.payloadRepositories),
     ("custom_repositories", encOpt (encList encodeCustomRepository) c.customRepositories),
     ("subscription", encOpt encodeSubscription c.subscription),
     ("openscap", encOpt encodeOpenSCAP c.openscap)]

/-- Decode the customizations bag. -/
def decodeCustomizations : Json → Option Customizations
  | .jsonObj fs => do
    let p ← decOptStrList (getField fs "packages")
    let u ← decOpt (decList decodeUser) (getField fs "users")
    let f ← decOpt (decList decodeFilesystem) (getField fs "filesystem")
    let pr ← decOpt (decList decodeRepository) (getField fs "payload_repositories")
    let cr ← decOpt (decList decodeCustomRepository) (getField fs "custom_repositories")
    let s ← decOpt decodeSubscription (getField fs "subscription")
    let o ← decOpt decodeOpenSCAP (getField fs "openscap")
    some ⟨p, u, f, pr, cr, s, o⟩
  | _ => none

/-- Encode an image request. -/
def encodeImageRequest (ir : ImageRequest) : Json :=
  .jsonObj
    [("architecture", .jsonStr ir.architecture),
     ("image_type", .jsonStr (imageTypeStr ir.imageType)),
     ("ostree", encOpt encodeOSTree ir.ostree),
     ("upload_request", encodeUploadRequest ir.uploadRequest)]

/-- Decode an image request. -/
def decodeImageRequest : Json → Option ImageRequest
  | .jsonObj fs => do
    let a ← decStr (getField fs "architecture")
    let its ← decStr (getField fs "image_type")
    let it ← imageTypeOfStr its
    let ot ← decOpt decodeOSTree (getField fs "ostree")
    let ur ← decodeUploadRequest (getField fs "upload_request")
    some ⟨a, it, ot, ur⟩
  | _ => none

/-- Modelled from the spec: serialization of the public compose request into
the opaque JSON payload persisted with the compose record (spec 3 Compose
Record, spec 4.5 request echo; the handler marshals the bound request and
stores it). Every field is written, null standing for an absent optional. -/
def encodeComposeRequest (r : ComposeRequest) : Json :=
  .jsonObj
    [("distribution", .jsonStr r.distribution),
     ("image_name", encOptStr r.imageName),
     ("image_requests", encList encodeImageRequest r.imageRequests),
     ("customizations", encOpt encodeCustomizations r.customizations)]

/-- Modelled from the spec: re-parsing of the persisted payload back into
the public compose request shape on a status read (spec 4.5: the stored
request JSON is parsed back and returned alongside status). -/
def decodeComposeRequest : Json → Option ComposeRequest
  | .jsonObj fs => do
    let d ← decStr (getField fs "distribution")
    let n ← decOptStr (getField fs "image_name")
    let irs ← decList decodeImageRequest (getField fs "image_requests")
    let c ← decOpt decodeCustomizations (getField fs "customizations")
    some ⟨d, n, irs, c⟩
  | _ => none

/-- The Request field of a fetched compose status: a pure function of the
persisted payload, so repeated fetches of the same record coincide. -/
def fetchComposeRequest (stored : Json) : Option ComposeRequest :=
  decodeComposeRequest stored

/-- C3: Azure upload option validation admits exactly the two shapes
\x7bsourceId only\x7d and \x7bsubscriptionId and tenantId, no sourceId\x7d;
every other combination of the three optional identifiers is rejected with
status 400 and the single canonical message describing the two valid
shapes. -/
theorem azure_upload_option_validation (o : AzureUploadRequestOptions) :
    (validateAzureUploadOptions o = .ok () ↔
      ((o.sourceId ≠ none ∧ o.subscriptionId = none ∧ o.tenantId = none) ∨
       (o.sourceId = none ∧ o.subscriptionId ≠ none ∧ o.tenantId ≠ none))) ∧
    (validateAzureUploadOptions o ≠ .ok () →
      validateAzureUploadOptions o = .error (400, azureValidationMessage)) := by
  obtain ⟨rg, src, sub, ten, img⟩ := o
  cases src <;> cases sub <;> cases ten <;>
    simp [validateAzureUploadOptions]

/-- Witness for C3: the test's AzureInvalid4 combination (source id and
subscription id, no tenant id) is rejected with the canonical message, and
the test's subscription-and-tenant combination passes. -/
theorem azure_upload_option_validation_witness :
    validateAzureUploadOptions ⟨"group", some "1", some "1", none, none⟩ =
        .error (400, azureValidationMessage) ∧
    validateAzureUploadOptions ⟨"group", none, some "id", some "tenant", some "azure-image"⟩ =
        .ok () := by
  constructor
  · exact (azure_upload_option_validation ⟨"group", some "1", some "1", none, none⟩).2
      (by simp [validateAzureUploadOptions])
  · exact (azure_upload_option_validation
      ⟨"group", none, some "id", some "tenant", some "azure-image"⟩).1.mpr
      (by simp)

/-- C4: compose submission validates that image_requests has length exactly
one: length zero fails with the minimum-items message naming the
/image_requests path, length two or more fails with the distinct
maximum-items message, and length one passes this check. -/
theorem image_requests_length_validation {α : Type} (l : List α) :
    (l.length = 0 → validateImageRequests l = .error (400, minItemsMessage)) ∧
    (2 ≤ l.length → validateImageRequests l = .error (400, maxItemsMessage)) ∧
    (l.length = 1 → validateImageRequests l = .ok ()) ∧
    minItemsMessage ≠ maxItemsMessage := by
  refine ⟨fun h => ?_, fun h => ?_, fun h => ?_, by decide⟩
  · simp [validateImageRequests, h]
  · have h1 : ¬ l.length < 1 := by omega
    have h2 : l.length > 1 := by omega
    simp [validateImageRequests, h1, h2]
  · simp [validateImageRequests, h]

/-- Witness for C4: the empty list is rejected with the minimum-items
message, a two-element list with the maximum-items message, and a
one-element list passes. -/
theorem image_requests_length_validation_witness :
    validateImageRequests ([] : List Nat) = .error (400, minItemsMessage) ∧
    validateImageRequests [1, 2] = .error (400, maxItemsMessage) ∧
    validateImageRequests [1] = .ok () := by
  refine ⟨(image_requests_length_validation ([] : List Nat)).1 rfl,
    (image_requests_length_validation [1, 2]).2.1 (by decide),
    (image_requests_length_validation [1]).2.2.1 rfl⟩

/-- C5: for AWS-family (aws, ami) and Azure-family (azure, vhd) image types
a filesystem customization whose summed minSize exceeds FSMaxSize is
rejected with status 400 and the family's message naming the byte limit
(distinct messages, same ceiling); a sum at or below FSMaxSize passes. -/
theorem filesystem_size_ceiling (it : ImageTypes) (fss : List Filesystem) :
    (isAwsFamily it = true → FSMaxSize < fsSum fss →
      validateFilesystemSize it fss = .error (400, awsFsMessage)) ∧
    (isAzureFamily it = true → FSMaxSize < fsSum fss →
      validateFilesystemSize it fss = .error (400, azureFsMessage)) ∧
    (fsSum fss ≤ FSMaxSize → validateFilesystemSize it fss = .ok ()) ∧
    awsFsMessage ≠ azureFsMessage := by
  refine ⟨fun ha hs => ?_, fun ha hs => ?_, fun hle => ?_, by decide⟩
  · have haz : isAzureFamily it = false := by
      cases it <;> simp_all [isAwsFamily, isAzureFamily]
    simp [validateFilesystemSize, ha, haz, hs]
  · have haw : isAwsFamily it = false := by
      cases it <;> simp_all [isAwsFamily, isAzureFamily]
    simp [validateFilesystemSize, haw, ha, hs]
  · have hng : ¬ (FSMaxSize < fsSum fss) := by omega
    simp [validateFilesystemSize, hng]

/-- Witness for C5: the test's 66 GiB filesystem pair is rejected for the
ami image type with the AWS message and for the vhd image type with the
Azure message, while a 3 GiB pair passes for the aws image type. -/
theorem filesystem_size_ceiling_witness :
    validateFilesystemSize .ami [⟨"/", 2147483648⟩, ⟨"/var", 68719476736⟩] =
        .error (400, awsFsMessage) ∧
    validateFilesystemSize .vhd [⟨"/", 2147483648⟩, ⟨"/var", 68719476736⟩] =
        .error (400, azureFsMessage) ∧
    validateFilesystemSize .aws [⟨"/", 2147483648⟩, ⟨"/var", 1073741824⟩] = .ok () := by
  refine ⟨(filesystem_size_ceiling .ami _).1 rfl (by decide),
    (filesystem_size_ceiling .vhd _).2.1 rfl (by decide),
    (filesystem_size_ceiling .aws _).2.2.1 (by decide)⟩

/-- C7: the backend's response to a submitted compose maps to the caller as
follows: any status other than created (201) yields a 500 unless the body
is a composer error with the OSTree resolution id (10), which yields a 400;
a created status whose body does not parse as a compose id yields a 500;
only a created status with a compose id succeeds, and no compose record is
persisted in any failure case. -/
theorem backend_response_mapping (status : Nat) (body : BackendBody) :
    (status ≠ 201 → ∀ r, body = .errorBody "10" r →
      handleBackendResponse status body = .error (400, "Error resolving OSTree repo") ∧
      persistedCompose status body = none) ∧
    (status ≠ 201 → (∀ r, body ≠ .errorBody "10" r) →
      handleBackendResponse status body =
        .error (500, "Failed posting compose request to osbuild-composer") ∧
      persistedCompose status body = none) ∧
    (status = 201 → (∀ i, body ≠ .composeIdBody i) →
      handleBackendResponse status body = .error (500, "Internal Server Error") ∧
      persistedCompose status body = none) ∧
    (status = 201 → ∀ i, body = .composeIdBody i →
      handleBackendResponse status body = .ok i ∧
      persistedCompose status body = some i) := by
  refine ⟨fun hs r hb => ?_, fun hs hb => ?_, fun hs hb => ?_, fun hs i hb => ?_⟩
  · subst hb; simp [handleBackendResponse, persistedCompose, hs]
  · cases body with
    | errorBody i r =>
      have : i ≠ "10" := by
        intro h; exact hb r (by rw [h])
      simp [handleBackendResponse, persistedCompose, hs, this]
    | composeIdBody i => simp [handleBackendResponse, persistedCompose, hs]
    | unparsable => simp [handleBackendResponse, persistedCompose, hs]
  · cases body with
    | errorBody i r => simp [handleBackendResponse, persistedCompose, hs]
    | composeIdBody i => exact absurd rfl (hb i)
    | unparsable => simp [handleBackendResponse, persistedCompose, hs]
  · subst hb; simp [handleBackendResponse, persistedCompose, hs]

/-- Witness for C7: the teapot status of the first test yields the 500
message, the OSTree error body of the second test yields 400 even at status
200, an unparsable created body yields 500, and a created compose id is
returned and persisted. -/
theorem backend_response_mapping_witness :
    (handleBackendResponse 418 .unparsable =
      .error (500, "Failed posting compose request to osbuild-composer")) ∧
    (handleBackendResponse 200 (.errorBody "10" "not ok") =
      .error (400, "Error resolving OSTree repo") ∧
      persistedCompose 200 (.errorBody "10" "not ok") = none) ∧
    (handleBackendResponse 201 .unparsable = .error (500, "Internal Server Error")) ∧
    (handleBackendResponse 201 (.composeIdBody "id0") = .ok "id0" ∧
      persistedCompose 201 (.composeIdBody "id0") = some "id0") := by
  refine ⟨((backend_response_mapping 418 .unparsable).2.1 (by decide)
      (fun r h => by cases h)).1,
    (backend_response_mapping 200 _).1 (by decide) "not ok" rfl,
    ((backend_response_mapping 201 .unparsable).2.2.1 rfl (fun i h => by cases h)).1,
    (backend_response_mapping 201 _).2.2.2 rfl "id0" rfl⟩

/-- C10: translating customizations.users moves each public user's sshKey
into the backend user's Key field and sets the backend user's Groups to
exactly ["wheel"], a group the caller never supplied, for every user in the
request, preserving order, count and names. -/
theorem users_translation_wheel_group (us : List User) (i : Nat)
    (h : i < us.length) :
    (buildUsers us).length = us.length ∧
    ∀ h2 : i < (buildUsers us).length,
      (buildUsers us).get ⟨i, h2⟩ =
        ⟨(us.get ⟨i, h⟩).name, some (us.get ⟨i, h⟩).sshKey, some ["wheel"]⟩ := by
  constructor
  · simp [buildUsers]
  · intro h2
    simp [buildUsers]

/-- Witness for C10: the test's single user is translated to the composer
user with the ssh key in Key and the wheel group. -/
theorem users_translation_wheel_group_witness :
    (buildUsers [⟨"user", "ssh-rsa AAAAB3NzaC1"⟩]).length = 1 ∧
    (buildUsers [⟨"user", "ssh-rsa AAAAB3NzaC1"⟩]).get ⟨0, by decide⟩ =
      ⟨"user", some "ssh-rsa AAAAB3NzaC1", some ["wheel"]⟩ := by
  have h := users_translation_wheel_group [⟨"user", "ssh-rsa AAAAB3NzaC1"⟩] 0 (by decide)
  exact ⟨h.1, h.2 (by decide)⟩

/-- Counterexample to C1 as stated: it is not the case that, with no
allow-list file configured, every distribution is permitted for every
organization.  The test suite's third allow-list subtest starts the server
without an allow file and observes 403 for the restricted centos-8 of the
test-data distribution directory. -/
theorem allow_list_no_file_claim_refuted :
    ¬ (∀ (d : DistroDescriptor) (org : String),
        composeAllowCheck none d org = none) := by
  intro h
  have hc := h testdataCentos8 "000000"
  simp [composeAllowCheck, testdataCentos8] at hc

/-- C1 amended: distribution descriptors carry a restricted-access flag.  A
non-restricted distribution always proceeds, whether or not an allow file
is configured.  A restricted distribution proceeds exactly when the
configured allow file lists the caller's organization for it; when no allow
file is configured the allow-list is empty, so every restricted
distribution is rejected with 403. -/
theorem allow_list_policy (file : Option AllowList) (d : DistroDescriptor)
    (org : String) :
    (d.restrictedAccess = false → composeAllowCheck file d org = none) ∧
    (d.restrictedAccess = true → file = none →
      composeAllowCheck file d org = some 403) ∧
    (∀ al, file = some al → d.restrictedAccess = true →
      allowListContains al d.name org = false →
      composeAllowCheck file d org = some 403) ∧
    (∀ al, file = some al → d.restrictedAccess = true →
      allowListContains al d.name org = true →
      composeAllowCheck file d org = none) := by
  refine ⟨fun h => ?_, fun h hf => ?_, fun al hf h hc => ?_, fun al hf h hc => ?_⟩
  · simp [composeAllowCheck, h]
  · subst hf; simp [composeAllowCheck, h]
  · subst hf; simp [composeAllowCheck, h, hc]
  · subst hf; simp [composeAllowCheck, h, hc]

/-- Witness for C1: with the test's allow file, org 000000 may build the
restricted centos-8 but not the restricted rhel-8, and with no allow file
the restricted centos-8 is rejected. -/
theorem allow_list_policy_witness :
    composeAllowCheck (some testAllowList) testdataCentos8 "000000" = none ∧
    composeAllowCheck (some testAllowList) testdataRhel8 "000000" = some 403 ∧
    composeAllowCheck none testdataCentos8 "000000" = some 403 := by
  refine ⟨(allow_list_policy (some testAllowList) testdataCentos8 "000000").2.2.2
      testAllowList rfl rfl (by decide),
    (allow_list_policy (some testAllowList) testdataRhel8 "000000").2.2.1
      testAllowList rfl rfl (by decide),
    (allow_list_policy none testdataCentos8 "000000").2.1 rfl rfl⟩

/-- Counterexample to C2 as stated: on the test's backend error tree the
translated public error is the innermost error node 23, which is not the
outermost composer-level error (node 9) that the claim says is surfaced
with its details preserved verbatim. -/
theorem compose_status_error_claim_refuted :
    parseComposeStatusError testBackendError = testExpectedPublicError ∧
    specStatusError testBackendError ≠ testExpectedPublicError := by
  constructor
  · simp [parseComposeStatusError, testBackendError, testExpectedPublicError]
  · intro h
    simp [specStatusError, testBackendError, testExpectedPublicError] at h

/-- C2 amended: the status translator recursively unwraps the nested error
details while the error id is a composer job-class id (5 or 9), surfacing
the first sub-error of each level, so the public ComposeStatus carries the
innermost specific error; an error whose id is not job-class, or a
job-class error without sub-errors, is surfaced as-is with its own details
preserved. -/
theorem compose_status_error_translation (i : Nat) (r : String)
    (ds : List CError) :
    (¬ (i = 5 ∨ i = 9) →
      parseComposeStatusError (.node i r ds) = .node i r ds) ∧
    ((i = 5 ∨ i = 9) → ∀ e rest, ds = e :: rest →
      parseComposeStatusError (.node i r ds) = parseComposeStatusError e) ∧
    ((i = 5 ∨ i = 9) → ds = [] →
      parseComposeStatusError (.node i r ds) = .node i r []) := by
  refine ⟨fun h => ?_, fun h e rest hd => ?_, fun h hd => ?_⟩
  · cases ds <;> simp [parseComposeStatusError, h]
  · subst hd; simp [parseComposeStatusError, h]
  · subst hd; simp [parseComposeStatusError, h]

/-- Witness for C2: unwinding the test's error tree with the translation
theorem reproduces the public error the test requires, the innermost
node 23. -/
theorem compose_status_error_translation_witness :
    parseComposeStatusError testBackendError = testExpectedPublicError := by
  have h9 := (compose_status_error_translation 9 "depenceny failed"
      [.node 5 "dependency failed" [.node 23 "Marking errors: package" []]]).2.1
      (Or.inr rfl) (.node 5 "dependency failed"
        [.node 23 "Marking errors: package" []]) [] rfl
  have h5 := (compose_status_error_translation 5 "dependency failed"
      [.node 23 "Marking errors: package" []]).2.1
      (Or.inl rfl) (.node 23 "Marking errors: package" []) [] rfl
  have h23 := (compose_status_error_translation 23 "Marking errors: package" []).1
      (by decide)
  exact h9.trans (h5.trans h23)

/-- Membership in the descending insertion is membership in the inserted
element or the original list. -/
theorem mem_insertByCreatedDesc (r a : ComposeRecord) (l : List ComposeRecord) :
    a ∈ insertByCreatedDesc r l ↔ a = r ∨ a ∈ l := by
  induction l with
  | nil => simp [insertByCreatedDesc]
  | cons x xs ih =>
    simp only [insertByCreatedDesc]
    split
    · simp
    · simp [ih]
      tauto

/-- Inserting into a list sorted by descending creation time keeps it
sorted. -/
theorem pairwise_insertByCreatedDesc (r : ComposeRecord)
    (l : List ComposeRecord)
    (h : l.Pairwise fun a b => b.createdAt ≤ a.createdAt) :
    (insertByCreatedDesc r l).Pairwise fun a b => b.createdAt ≤ a.createdAt := by
  induction l with
  | nil => simp [insertByCreatedDesc]
  | cons x xs ih =>
    rw [List.pairwise_cons] at h
    obtain ⟨hx, hxs⟩ := h
    simp only [insertByCreatedDesc]
    split
    · rename_i hle
      rw [List.pairwise_cons]
      refine ⟨fun b hb => ?_, List.Pairwise.cons hx hxs⟩
      rcases List.mem_cons.mp hb with h1 | h1
      · subst h1; exact hle
      · exact le_trans (hx b h1) hle
    · rename_i hgt
      rw [List.pairwise_cons]
      refine ⟨fun b hb => ?_, ih hxs⟩
      rcases (mem_insertByCreatedDesc r b xs).mp hb with h1 | h1
      · subst h1; omega
      · exact hx b h1

/-- Sorting by descending creation time preserves membership. -/
theorem mem_sortByCreatedDesc (a : ComposeRecord) (l : List ComposeRecord) :
    a ∈ sortByCreatedDesc l ↔ a ∈ l := by
  induction l with
  | nil => simp [sortByCreatedDesc]
  | cons x xs ih => simp [sortByCreatedDesc, mem_insertByCreatedDesc, ih]

/-- The descending insertion sort produces a descending list. -/
theorem pairwise_sortByCreatedDesc (l : List ComposeRecord) :
    (sortByCreatedDesc l).Pairwise fun a b => b.createdAt ≤ a.createdAt := by
  induction l with
  | nil => simp [sortByCreatedDesc]
  | cons x xs ih => exact pairwise_insertByCreatedDesc x _ ih

/-- Counterexample to C8 as stated: the most recently created compose does
not appear at the end of the listing.  On the test's three-record database
the unique newest record (creation time 3) is not the last element of the
returned data; the last element is the oldest record, exactly as
TestGetComposes requires (the first-inserted compose is found at index 2). -/
theorem compose_list_newest_last_refuted :
    ¬ (∀ (db : List ComposeRecord) (org : String) (r : ComposeRecord),
        r ∈ getComposes db org →
        (∀ x ∈ getComposes db org, x.createdAt ≤ r.createdAt) →
        (getComposes db org).getLast? = some r) := by
  intro h
  have hc := h testComposesDb "000000" ⟨"id3", "000000", 3⟩
    (by decide) (by decide)
  have he : (getComposes testComposesDb "000000").getLast? =
      some ⟨"id1", "000000", 1⟩ := by decide
  rw [he] at hc
  simp at hc

/-- C8 amended: listing composes returns exactly the caller organization's
records, ordered by creation time with the newest entry first (descending
creation time, so the most recently created compose appears at the
beginning and the oldest at the end), and every page of the pagination is
drawn from that ordered, org-scoped listing. -/
theorem compose_list_ordering (db : List ComposeRecord) (org : String) :
    (∀ r ∈ getComposes db org, r.orgId = org) ∧
    ((getComposes db org).Pairwise fun a b => b.createdAt ≤ a.createdAt) ∧
    (∀ r, r ∈ getComposes db org ↔ r ∈ db ∧ r.orgId = org) ∧
    (∀ offset limit r, r ∈ getComposesPage db org offset limit →
      r ∈ db ∧ r.orgId = org) := by
  have hmem : ∀ r, r ∈ getComposes db org ↔ r ∈ db ∧ r.orgId = org := by
    intro r
    rw [getComposes, mem_sortByCreatedDesc, List.mem_filter]
    simp
  refine ⟨fun r hr => ((hmem r).mp hr).2, pairwise_sortByCreatedDesc _, hmem,
    fun offset limit r hr => ?_⟩
  exact (hmem r).mp (List.drop_subset offset _ (List.take_subset _ _ hr))

/-- Witness for C8: on the test's database the newest record is a member of
the listing, the listing is in descending creation order, and membership
characterizes exactly the organization's records. -/
theorem compose_list_ordering_witness :
    (⟨"id3", "000000", 3⟩ : ComposeRecord) ∈ getComposes testComposesDb "000000" ∧
    ((getComposes testComposesDb "000000").Pairwise
      fun a b => b.createdAt ≤ a.createdAt) ∧
    (⟨"id1", "000000", 1⟩ : ComposeRecord).orgId = "000000" := by
  have h := compose_list_ordering testComposesDb "000000"
  refine ⟨(h.2.2.1 _).mpr (by decide), h.2.1,
    h.1 ⟨"id1", "000000", 1⟩ ((h.2.2.1 _).mpr (by decide))⟩

/-- C6: identity resolution maps each malformed-header class to its own 400
error: a missing header, a header that does not base64-decode, decoded
bytes that do not parse as a well-formed identity document, and an identity
with an empty organization id; and every failure of the resolver is a 400,
never a crash or a non-4xx outcome (the resolver is a total function into
ok-or-400). -/
theorem identity_error_taxonomy (header : Option String) :
    (header = none →
      resolveIdentity header = .error (400, missingHeaderMessage)) ∧
    (∀ s, header = some s → b64Decode s = none →
      resolveIdentity header = .error (400, badB64Message)) ∧
    (∀ s bytes, header = some s → b64Decode s = some bytes →
      (parseJsonBytes bytes).bind identityFromJson = none →
      resolveIdentity header = .error (400, badJsonMessage)) ∧
    (∀ s bytes ident, header = some s → b64Decode s = some bytes →
      (parseJsonBytes bytes).bind identityFromJson = some ident →
      ident.orgId = "" →
      resolveIdentity header = .error (400, badOrgMessage)) ∧
    (∀ e, resolveIdentity header = .error e → e.1 = 400) := by
  refine ⟨fun h => ?_, fun s h hb => ?_, fun s bytes h hb hp => ?_,
    fun s bytes ident h hb hp ho => ?_, fun e he => ?_⟩
  · subst h; rfl
  · subst h; simp [resolveIdentity, hb]
  · subst h; simp [resolveIdentity, hb, hp]
  · subst h; simp [resolveIdentity, hb, hp, ho]
  · cases header with
    | none => cases he; rfl
    | some s =>
      rw [resolveIdentity] at he
      cases hb : b64Decode s with
      | none => simp only [hb] at he; cases he; rfl
      | some bytes =>
        simp only [hb] at he
        cases hp : (parseJsonBytes bytes).bind identityFromJson with
        | none => simp only [hp] at he; cases he; rfl
        | some ident =>
          simp only [hp] at he
          by_cases ho : ident.orgId = ""
          · rw [if_pos ho] at he; cases he; rfl
          · rw [if_neg ho] at he; cases he

/-- Witness for C6: the four concrete malformed headers of the test suite
(absent; the non-base64 "notbase64"; the base64 of "this is definitely not
json" followed by a newline; the base64 of an identity document with an
empty org_id) each produce their 400 error. -/
theorem identity_error_taxonomy_witness :
    resolveIdentity none = .error (400, missingHeaderMessage) ∧
    resolveIdentity (some "notbase64") = .error (400, badB64Message) ∧
    resolveIdentity (some "dGhpcyBpcyBkZWZpbml0ZWx5IG5vdCBqc29uCg==") =
      .error (400, badJsonMessage) ∧
    resolveIdentity (some "eyJpZGVudGl0eSI6eyJvcmdfaWQiOiIifX0=") =
      .error (400, badOrgMessage) := by
  refine ⟨(identity_error_taxonomy none).1 rfl,
    (identity_error_taxonomy (some "notbase64")).2.1 "notbase64" rfl (by decide),
    (identity_error_taxonomy (some "dGhpcyBpcyBkZWZpbml0ZWx5IG5vdCBqc29uCg==")).2.2.1
      "dGhpcyBpcyBkZWZpbml0ZWx5IG5vdCBqc29uCg=="
      [116, 104, 105, 115, 32, 105, 115, 32, 100, 101, 102, 105, 110, 105,
       116, 101, 108, 121, 32, 110, 111, 116, 32, 106, 115, 111, 110, 10]
      rfl (by decide) rfl,
    (identity_error_taxonomy (some "eyJpZGVudGl0eSI6eyJvcmdfaWQiOiIifX0=")).2.2.2.1
      "eyJpZGVudGl0eSI6eyJvcmdfaWQiOiIifX0="
      [123, 34, 105, 100, 101, 110, 116, 105, 116, 121, 34, 58, 123, 34,
       111, 114, 103, 95, 105, 100, 34, 58, 34, 34, 125, 125]
      ⟨"", ""⟩ rfl (by decide) rfl rfl⟩

/-- Optional strings survive the encode/decode pair. -/
theorem decOptStr_encOptStr (o : Option String) :
    decOptStr (encOptStr o) = some o := by
  cases o <;> rfl

/-- Optional booleans survive the encode/decode pair. -/
theorem decOptBool_encOptBool (o : Option Bool) :
    decOptBool (encOptBool o) = some o := by
  cases o <;> rfl

/-- Naturals survive encoding as non-negative JSON integers. -/
theorem decNat_encNat (n : Nat) : decNat (.jsonNum (Int.ofNat n)) = some n := by
  simp [decNat]

/-- A mapped list decodes back when each element does. -/
theorem decodeListWith_map {α : Type} (enc : α → Json) (dec : Json → Option α)
    (h : ∀ x, dec (enc x) = some x) (xs : List α) :
    decodeListWith dec (xs.map enc) = some xs := by
  induction xs with
  | nil => rfl
  | cons x xs ih => simp [decodeListWith, h, ih]

/-- An encoded list decodes back when each element does. -/
theorem decList_encList {α : Type} (enc : α → Json) (dec : Json → Option α)
    (h : ∀ x, dec (enc x) = some x) (xs : List α) :
    decList dec (encList enc xs) = some xs := by
  simp [decList, encList, decodeListWith_map enc dec h]

/-- String lists survive the encode/decode pair. -/
theorem decStrList_encStrList (xs : List String) :
    decStrList (encStrList xs) = some xs := by
  simp [decStrList, encStrList, decodeListWith_map Json.jsonStr decStr fun _ => rfl]

/-- Optional string lists survive the encode/decode pair. -/
theorem decOptStrList_encOptStrList (o : Option (List String)) :
    decOptStrList (encOptStrList o) = some o := by
  cases o with
  | none => rfl
  | some xs =>
    simp [encOptStrList, decOptStrList, encStrList, Json.isNull,
      decStrList_encStrList xs, decStrList, encStrList,
      decodeListWith_map Json.jsonStr decStr fun _ => rfl]

/-- An encoded optional decodes back when the element does and the element
encoder never produces null. -/
theorem decOpt_encOpt {α : Type} (enc : α → Json) (dec : Json → Option α)
    (hnn : ∀ x, (enc x).isNull = false) (h : ∀ x, dec (enc x) = some x) :
    ∀ o : Option α, decOpt dec (encOpt enc o) = some o
  | none => rfl
  | some x => by simp [encOpt, decOpt, hnn x, h x]

/-- OSTree options survive the encode/decode pair. -/
theorem rt_ostree (o : OSTree) : decodeOSTree (encodeOSTree o) = some o := by
  simp [encodeOSTree, decodeOSTree, getField, decOptStr_encOptStr,
    decOptBool_encOptBool]

/-- AWS upload options survive the encode/decode pair. -/
theorem rt_awsOptions (o : AWSUploadRequestOptions) :
    decodeAWSOptions (encodeAWSOptions o) = some o := by
  simp [encodeAWSOptions, decodeAWSOptions, getField, decOptStrList_encOptStrList]

/-- Azure upload options survive the encode/decode pair. -/
theorem rt_azureOptions (o : AzureUploadRequestOptions) :
    decodeAzureOptions (encodeAzureOptions o) = some o := by
  simp [encodeAzureOptions, decodeAzureOptions, getField, decStr,
    decOptStr_encOptStr]

/-- GCP upload options survive the encode/decode pair. -/
theorem rt_gcpOptions (o : GCPUploadRequestOptions) :
    decodeGCPOptions (encodeGCPOptions o) = some o := by
  simp [encodeGCPOptions, decodeGCPOptions, getField, decOptStrList_encOptStrList]

/-- Upload requests survive the encode/decode pair: the discriminator is
re-read and dispatches back to the variant that was encoded. -/
theorem rt_uploadRequest (u : UploadRequest) :
    decodeUploadRequest (encodeUploadRequest u) = some u := by
  obtain ⟨opts⟩ := u
  cases opts with
  | awsOptions o =>
    simp [encodeUploadRequest, decodeUploadRequest, uploadTypeStr,
      encodeUploadOptions, getField, decStr, rt_awsOptions]
  | awsS3Options =>
    simp [encodeUploadRequest, decodeUploadRequest, uploadTypeStr,
      encodeUploadOptions, getField, decStr]
  | azureOptions o =>
    simp [encodeUploadRequest, decodeUploadRequest, uploadTypeStr,
      encodeUploadOptions, getField, decStr, rt_azureOptions]
  | gcpOptions o =>
    simp [encodeUploadRequest, decodeUploadRequest, uploadTypeStr,
      encodeUploadOptions, getField, decStr, rt_gcpOptions]

/-- Payload repositories survive the encode/decode pair. -/
theorem rt_repository (r : Repository) :
    decodeRepository (encodeRepository r) = some r := by
  simp [encodeRepository, decodeRepository, getField, decOptStr_encOptStr,
    decOptBool_encOptBool, decBool]

/-- Custom repositories survive the encode/decode pair. -/
theorem rt_customRepository (r : CustomRepository) :
    decodeCustomRepository (encodeCustomRepository r) = some r := by
  simp [encodeCustomRepository, decodeCustomRepository, getField, decStr,
    decOptStrList_encOptStrList, decOptBool_encOptBool]

/-- User customizations survive the encode/decode pair. -/
theorem rt_user (u : User) : decodeUser (encodeUser u) = some u := by
  simp [encodeUser, decodeUser, getField, decStr]

/-- Filesystem entries survive the encode/decode pair. -/
theorem rt_filesystem (f : Filesystem) :
    decodeFilesystem (encodeFilesystem f) = some f := by
  simp [encodeFilesystem, decodeFilesystem, getField, decStr, decNat,
    Int.toNat_natCast]

/-- Subscription customizations survive the encode/decode pair. -/
theorem rt_subscription (s : Subscription) :
    decodeSubscription (encodeSubscription s) = some s := by
  simp [encodeSubscription, decodeSubscription, getField, decStr, decInt,
    decBool]

/-- Openscap customizations survive the encode/decode pair. -/
theorem rt_openscap (o : OpenSCAP) :
    decodeOpenSCAP (encodeOpenSCAP o) = some o := by
  simp [encodeOpenSCAP, decodeOpenSCAP, getField, decStr]

/-- Optional user lists survive the encode/decode pair. -/
theorem rt_users_opt (o : Option (List User)) :
    decOpt (decList decodeUser) (encOpt (encList encodeUser) o) = some o :=
  decOpt_encOpt (encList encodeUser) (decList decodeUser) (fun _ => rfl)
    (decList_encList _ _ rt_user) o

/-- Optional filesystem lists survive the encode/decode pair. -/
theorem rt_filesystem_opt (o : Option (List Filesystem)) :
    decOpt (decList decodeFilesystem) (encOpt (encList encodeFilesystem) o) =
      some o :=
  decOpt_encOpt (encList encodeFilesystem) (decList decodeFilesystem)
    (fun _ => rfl) (decList_encList _ _ rt_filesystem) o

/-- Optional payload repository lists survive the encode/decode pair. -/
theorem rt_payloadRepos_opt (o : Option (List Repository)) :
    decOpt (decList decodeRepository) (encOpt (encList encodeRepository) o) =
      some o :=
  decOpt_encOpt (encList encodeRepository) (decList decodeRepository)
    (fun _ => rfl) (decList_encList _ _ rt_repository) o

/-- Optional custom repository lists survive the encode/decode pair. -/
theorem rt_customRepos_opt (o : Option (List CustomRepository)) :
    decOpt (decList decodeCustomRepository)
      (encOpt (encList encodeCustomRepository) o) = some o :=
  decOpt_encOpt (encList encodeCustomRepository) (decList decodeCustomRepository)
    (fun _ => rfl) (decList_encList _ _ rt_customRepository) o

/-- Optional subscriptions survive the encode/decode pair. -/
theorem rt_subscription_opt (o : Option Subscription) :
    decOpt decodeSubscription (encOpt encodeSubscription o) = some o :=
  decOpt_encOpt encodeSubscription decodeSubscription (fun _ => rfl)
    rt_subscription o

/-- Optional openscap customizations survive the encode/decode pair. -/
theorem rt_openscap_opt (o : Option OpenSCAP) :
    decOpt decodeOpenSCAP (encOpt encodeOpenSCAP o) = some o :=
  decOpt_encOpt encodeOpenSCAP decodeOpenSCAP (fun _ => rfl) rt_openscap o

/-- Optional OSTree options survive the encode/decode pair. -/
theorem rt_ostree_opt (o : Option OSTree) :
    decOpt decodeOSTree (encOpt encodeOSTree o) = some o :=
  decOpt_encOpt encodeOSTree decodeOSTree (fun _ => rfl) rt_ostree o

/-- Customization bags survive the encode/decode pair. -/
theorem rt_customizations (c : Customizations) :
    decodeCustomizations (encodeCustomizations c) = some c := by
  simp [encodeCustomizations, decodeCustomizations, getField,
    decOptStrList_encOptStrList, rt_users_opt, rt_filesystem_opt,
    rt_payloadRepos_opt, rt_customRepos_opt, rt_subscription_opt,
    rt_openscap_opt]

/-- Image types survive their string form. -/
theorem imageTypeOfStr_imageTypeStr (it : ImageTypes) :
    imageTypeOfStr (imageTypeStr it) = some it := by
  cases it <;> rfl

/-- Image requests survive the encode/decode pair. -/
theorem rt_imageRequest (ir : ImageRequest) :
    decodeImageRequest (encodeImageRequest ir) = some ir := by
  simp [encodeImageRequest, decodeImageRequest, getField, decStr,
    imageTypeOfStr_imageTypeStr, rt_ostree_opt, rt_uploadRequest]

/-- Optional customization bags survive the encode/decode pair. -/
theorem rt_customizations_opt (o : Option Customizations) :
    decOpt decodeCustomizations (encOpt encodeCustomizations o) = some o :=
  decOpt_encOpt encodeCustomizations decodeCustomizations (fun _ => rfl)
    rt_customizations o

/-- C9: the translation round-trip.  A ComposeRequest serialized into the
persisted payload and re-parsed on a compose status read is returned
structurally equal to the original, field for field, including the nested
(type-dispatched) upload options; and since the fetched Request is a pure
function of the stored payload, repeated fetches of the same record return
the same value. -/
theorem compose_request_roundtrip (r : ComposeRequest) :
    fetchComposeRequest (encodeComposeRequest r) = some r := by
  simp [fetchComposeRequest, encodeComposeRequest, decodeComposeRequest,
    getField, decStr, decOptStr_encOptStr,
    decList_encList _ _ rt_imageRequest, rt_customizations_opt]

end ImageBuilder
